import Mathlib

/-!
Verification of the schema-diff-and-migration helper (`helper_clickhouse`):
a shallow embedding of `src/helper_clickhouse/__init__.py` and proofs about
its diff engine, migration renderer, transport gate and result decoding.

Modelling conventions:
* Python strings are Lean `String`; `str.strip`, `str.lower`, `str.upper`
  and substring search (`str.find(...) != -1`) are re-implemented on the
  character list (`pyStrip`, `pyLower`, `pyUpper`, `strContainsSub`).
* Python `None` / exceptions: functions that can raise return `Except PyError`.
* The HTTP collaborator (`requests.post`) is a parameter
  `Transport : String → HttpResp`; the response carries both the raw body and
  the result of `r.json()` (`none` when JSON decoding would raise `ValueError`).
* Side effects that the claims talk about (network submissions, logger output)
  are returned explicitly as an `Effects` value.
-/

/-- One column description, an entry of the lists handed to `diff_fields`
(`{"name": ..., "type": ...}`). -/
structure Column where
  name : String
  type : String
deriving DecidableEq

/-- One change operation, as produced by `ClickhouseProxy.diff_fields`
(`dict(op="add"|"modify"|"drop", ...)`; a drop carries no type). -/
inductive ChangeOp where
  | add (name type : String)
  | modify (name type : String)
  | drop (name : String)
deriving DecidableEq

/-- Python dict building `d[item["name"]] = item["type"]` over a list in order
(later entries overwrite earlier ones), read back by name: `dictGet l n` is the
type of the LAST column of `l` named `n`. `(dictGet l n).isSome` models
`n in d`, `Option.get` models `d[n]`. -/
def dictGet : List Column → String → Option String
  | [], _ => Option.none
  | c :: rest, n =>
    match dictGet rest n with
    | some t => some t
    | Option.none => if c.name == n then some c.type else Option.none

/-- Truthiness of the `reservered` argument (`None` and the empty collection
are falsy in Python). -/
def pyOptListTruthy (r : Option (List String)) : Bool :=
  match r with
  | Option.none => false
  | some l => !l.isEmpty

/-- The drop gate of `diff_fields`: Python
`(reservered and item["name"] not in reservered)` — short-circuit `and` on a
possibly-`None`, possibly-empty collection. -/
def reservedGate (r : Option (List String)) (n : String) : Bool :=
  match r with
  | Option.none => false
  | some l => !l.isEmpty && !l.contains n

/-- `ClickhouseProxy.diff_fields(old, new, reservered=None)`: build name→type
dicts from `old` and `new`; first pass over `new` emits `add` for unknown names
and `modify` for known names whose type string differs; second pass over `old`
emits `drop` for names absent from `new` subject to the `reservedGate`. -/
def diff_fields (old new : List Column) (reservered : Option (List String)) :
    List ChangeOp :=
  let addsModifies := new.filterMap (fun item =>
    match dictGet old item.name with
    | Option.none => some (ChangeOp.add item.name item.type)
    | some old_type =>
      if old_type != item.type then some (ChangeOp.modify item.name item.type)
      else Option.none)
  let drops := old.filterMap (fun item =>
    if (dictGet new item.name == Option.none) && reservedGate reservered item.name then
      some (ChangeOp.drop item.name)
    else Option.none)
  addsModifies ++ drops

theorem dictGet_eq_none (l : List Column) (n : String)
    (h : ∀ c ∈ l, c.name ≠ n) : dictGet l n = Option.none := by
  induction l with
  | nil => rfl
  | cons c rest ih =>
    have hc : c.name ≠ n := h c (by simp)
    have hr := ih (fun x hx => h x (by simp [hx]))
    simp [dictGet, hr, hc]

theorem dictGet_mem_nodup (l : List Column) (c : Column)
    (hnd : (l.map Column.name).Nodup) (hm : c ∈ l) :
    dictGet l c.name = some c.type := by
  induction l with
  | nil => cases hm
  | cons a rest ih =>
    rw [List.map_cons, List.nodup_cons] at hnd
    rcases List.mem_cons.mp hm with rfl | hmem
    · have : ∀ x ∈ rest, x.name ≠ c.name := by
        intro x hx heq
        exact hnd.1 (heq ▸ List.mem_map_of_mem Column.name hx)
      simp [dictGet, dictGet_eq_none rest c.name this]
    · simp [dictGet, ih hnd.2 hmem]

theorem filterMap_congr_map {α β : Type} (l : List α) (f : α → Option β)
    (g : α → β) (h : ∀ a ∈ l, f a = some (g a)) : l.filterMap f = l.map g := by
  induction l with
  | nil => rfl
  | cons a t ih =>
    simp only [List.filterMap_cons, h a (by simp), List.map_cons]
    rw [ih (fun x hx => h x (by simp [hx]))]

theorem filterMap_eq_nil_of_none {α β : Type} (l : List α) (f : α → Option β)
    (h : ∀ a ∈ l, f a = Option.none) : l.filterMap f = [] := by
  induction l with
  | nil => rfl
  | cons a t ih =>
    simp only [List.filterMap_cons, h a (by simp)]
    exact ih (fun x hx => h x (by simp [hx]))

/-- C1 (counterexample): with `old = [{a, UInt8}]`, `new = []` and `reservered`
unset, the code emits NO change at all — in particular no `Drop{a}` — because
the drop gate `(reservered and name not in reservered)` short-circuits to
falsy when `reservered` is `None`/empty. The claim demands exactly one Drop
here. -/
theorem c1_counterexample :
    diff_fields [⟨"a", "UInt8"⟩] [] Option.none = [] ∧
    ChangeOp.drop "a" ∉ diff_fields [⟨"a", "UInt8"⟩] [] Option.none := by
  constructor
  · rfl
  · decide

/-- C1 (amended): for disjoint `old`/`new` and an empty or unset reserved set,
`diff_fields` returns exactly the `len(new)` Adds in `new`'s iteration order
and NO Drops: a Drop is never emitted when the reserved set is empty or unset,
because the drop gate requires a truthy `reservered`. -/
theorem c1_amended (old new : List Column) (reservered : Option (List String))
    (hdisj : ∀ c ∈ new, ∀ c' ∈ old, c.name ≠ c'.name)
    (hres : pyOptListTruthy reservered = false) :
    diff_fields old new reservered =
      new.map (fun c => ChangeOp.add c.name c.type) := by
  unfold diff_fields
  have h1 : new.filterMap (fun item =>
      match dictGet old item.name with
      | Option.none => some (ChangeOp.add item.name item.type)
      | some old_type =>
        if old_type != item.type then some (ChangeOp.modify item.name item.type)
        else Option.none) = new.map (fun c => ChangeOp.add c.name c.type) := by
    apply filterMap_congr_map
    intro a ha
    rw [dictGet_eq_none old a.name (fun c' hc' => (hdisj a ha c' hc').symm)]
  have h2 : old.filterMap (fun item =>
      if (dictGet new item.name == Option.none) && reservedGate reservered item.name then
        some (ChangeOp.drop item.name)
      else Option.none) = [] := by
    apply filterMap_eq_nil_of_none
    intro a _
    have : reservedGate reservered a.name = false := by
      cases reservered with
      | none => rfl
      | some l =>
        simp only [pyOptListTruthy, Bool.not_eq_true'] at hres
        simp [reservedGate, hres]
    simp [this]
  rw [h1, h2, List.append_nil]

/-- C1 (witness for the amended theorem): a concrete disjoint pair with the
reserved set empty yields exactly the Adds and no Drop. -/
theorem c1_amended_witness :
    pyOptListTruthy (some []) = false ∧
    diff_fields [⟨"a", "UInt8"⟩] [⟨"b", "String"⟩, ⟨"c", "UInt64"⟩] (some []) =
      [ChangeOp.add "b" "String", ChangeOp.add "c" "UInt64"] := by
  refine ⟨by decide, ?_⟩
  have h := c1_amended [⟨"a", "UInt8"⟩] [⟨"b", "String"⟩, ⟨"c", "UInt64"⟩]
    (some []) (by decide) (by decide)
  simpa using h

/-- C6 (confirmed): a name belonging to the reserved set is never dropped:
`Drop{n}` is not in `diff_fields old new (some r)` for any `n ∈ r`, whatever
`old` and `new` are. The first pass only emits Add/Modify; the second pass
requires `name not in reservered`. -/
theorem c6_reserved_never_dropped (old new : List Column) (r : List String)
    (n : String) (hn : n ∈ r) :
    ChangeOp.drop n ∉ diff_fields old new (some r) := by
  intro hmem
  unfold diff_fields at hmem
  rcases List.mem_append.mp hmem with h1 | h2
  · rcases List.mem_filterMap.mp h1 with ⟨item, _, heq⟩
    split at heq
    · exact ChangeOp.noConfusion (Option.some.inj heq)
    · split at heq
      · exact ChangeOp.noConfusion (Option.some.inj heq)
      · exact Option.noConfusion heq
  · rcases List.mem_filterMap.mp h2 with ⟨item, _, heq⟩
    split at heq
    case isTrue hc =>
      have hname : item.name = n := by
        have := Option.some.inj heq
        cases this
        rfl
      rw [hname] at hc
      simp only [Bool.and_eq_true] at hc
      have hgate := hc.2
      simp only [reservedGate, Bool.and_eq_true, Bool.not_eq_true'] at hgate
      have : r.contains n = true := by simp [hn]
      rw [this] at hgate
      exact Bool.noConfusion hgate.2
    case isFalse => exact Option.noConfusion heq

/-- C6 (witness): the spec's scenario — `old=[{a,UInt8},{sys,String}]`,
`new=[]`, `reserved={sys}` — yields exactly `[Drop{a}]`, and the theorem
instantiated there shows `Drop{sys}` is absent. -/
theorem c6_reserved_never_dropped_witness :
    "sys" ∈ ["sys"] ∧
    ChangeOp.drop "sys" ∉
      diff_fields [⟨"a", "UInt8"⟩, ⟨"sys", "String"⟩] [] (some ["sys"]) ∧
    diff_fields [⟨"a", "UInt8"⟩, ⟨"sys", "String"⟩] [] (some ["sys"]) =
      [ChangeOp.drop "a"] := by
  refine ⟨by decide, ?_, by decide⟩
  exact c6_reserved_never_dropped [⟨"a", "UInt8"⟩, ⟨"sys", "String"⟩] []
    ["sys"] "sys" (by decide)

/-- C7 (confirmed): diffing a ColumnSet with unique names against itself with
the reserved set unset yields no change operation at all. -/
theorem c7_diff_self_nil (old : List Column)
    (hnd : (old.map Column.name).Nodup) :
    diff_fields old old Option.none = [] := by
  unfold diff_fields
  have h1 : old.filterMap (fun item =>
      match dictGet old item.name with
      | Option.none => some (ChangeOp.add item.name item.type)
      | some old_type =>
        if old_type != item.type then some (ChangeOp.modify item.name item.type)
        else Option.none) = [] := by
    apply filterMap_eq_nil_of_none
    intro a ha
    rw [dictGet_mem_nodup old a hnd ha]
    simp
  have h2 : old.filterMap (fun item =>
      if (dictGet old item.name == Option.none) && reservedGate Option.none item.name then
        some (ChangeOp.drop item.name)
      else Option.none) = [] := by
    apply filterMap_eq_nil_of_none
    intro a _
    simp [reservedGate]
  rw [h1, h2, List.append_nil]

/-- C7 (witness): a concrete two-column schema diffed against itself yields
no changes. -/
theorem c7_diff_self_nil_witness :
    ([⟨"a", "UInt8"⟩, ⟨"b", "String"⟩] : List Column).map Column.name = ["a", "b"] ∧
    diff_fields [⟨"a", "UInt8"⟩, ⟨"b", "String"⟩] [⟨"a", "UInt8"⟩, ⟨"b", "String"⟩]
      Option.none = [] := by
  refine ⟨by decide, ?_⟩
  exact c7_diff_self_nil [⟨"a", "UInt8"⟩, ⟨"b", "String"⟩] (by decide)

/-- Python value, as far as the JSON responses and decoded rows need:
`None`, booleans, integers, strings, lists and string-keyed dicts. -/
inductive PyObj where
  | none
  | bool (b : Bool)
  | int (n : Int)
  | str (s : String)
  | list (xs : List PyObj)
  | dict (fs : List (String × PyObj))

/-- Python exception classes raised by the modelled code paths. -/
inductive PyError where
  | attributeError (name : String)
  | keyError (k : String)
  | typeError
  | valueError
deriving DecidableEq

/-- Python truthiness (`bool(v)`). -/
def pyTruthy : PyObj → Bool
  | PyObj.none => false
  | PyObj.bool b => b
  | PyObj.int n => n != 0
  | PyObj.str s => s != ""
  | PyObj.list xs => !xs.isEmpty
  | PyObj.dict fs => !fs.isEmpty

/-- Python iteration `for row in v`: lists yield elements, strings yield
one-character strings, dicts yield their keys; `None`, booleans and integers
raise `TypeError` (not iterable). -/
def pyIter : PyObj → Except PyError (List PyObj)
  | PyObj.list xs => Except.ok xs
  | PyObj.str s => Except.ok (s.data.map (fun c => PyObj.str (String.mk [c])))
  | PyObj.dict fs => Except.ok (fs.map (fun f => PyObj.str f.1))
  | _ => Except.error PyError.typeError

/-- Python subscription `v[k]` with a string key: dict lookup (`KeyError` when
the key is missing), `TypeError` on every non-dict value. -/
def pyIndex : PyObj → String → Except PyError PyObj
  | PyObj.dict fs, k =>
    match fs.find? (fun f => f.1 == k) with
    | some f => Except.ok f.2
    | Option.none => Except.error (PyError.keyError k)
  | _, _ => Except.error PyError.typeError

/-- Python `str.strip()` (restricted to ASCII whitespace, which is all the
modelled statements contain). -/
def pyStrip (s : String) : String :=
  String.mk (((s.data.dropWhile Char.isWhitespace).reverse.dropWhile
    Char.isWhitespace).reverse)

/-- Python `str.lower()` (ASCII). -/
def pyLower (s : String) : String :=
  String.mk (s.data.map Char.toLower)

/-- Python `str.upper()` (ASCII). -/
def pyUpper (s : String) : String :=
  String.mk (s.data.map Char.toUpper)

/-- Prefix test on character lists, helper for substring search. -/
def listHasPre : List Char → List Char → Bool
  | [], _ => true
  | _ :: _, [] => false
  | p :: ps, c :: cs => p == c && listHasPre ps cs

/-- Substring occurrence on character lists. -/
def listHasSub (pat : List Char) : List Char → Bool
  | [] => pat.isEmpty
  | c :: cs => listHasPre pat (c :: cs) || listHasSub pat cs

/-- Python `s.find(pat) != -1`: `pat` occurs as a substring of `s`. -/
def strContainsSub (s pat : String) : Bool :=
  listHasSub pat.data s.data

/-- One HTTP response from the store, the boundary value handed back by the
`requests.post` collaborator: status code, raw body (`r.content`), and the
outcome of `r.json()` — `none` models a body whose JSON decode raises
`ValueError`. -/
structure HttpResp where
  status_code : Nat
  content : String
  jsonBody : Option PyObj

/-- The HTTP collaborator: what the store answers to a posted statement. -/
def Transport : Type := String → HttpResp

/-- One observable network submission (`requests.post(url=url, data=sql)`). -/
inductive NetEvent where
  | post (url : String) (body : String)
deriving DecidableEq

/-- Observable side effects of one call: network submissions and logger
messages, in emission order. -/
structure Effects where
  net : List NetEvent
  logs : List String
deriving DecidableEq

/-- The `ClickhouseProxy` instance state as `__init__` leaves it. NOTE: the
constructor parameter `dbn` is stored in the attribute `db`
(`self.db = dbn`); no attribute named `dbn` exists on the instance. The
`logger` collaborator is modelled by the `Effects.logs` output and the float
`timeout` (only forwarded to the HTTP collaborator) is not modelled. -/
structure ClickhouseProxy where
  host : String
  port_http : Nat
  username : String
  password : Option String
  db : String
  fmt : String
  nodry : Bool

/-- `ClickhouseProxy.FORMATS`. -/
def FORMATS : List String := ["TabSeparated", "JSON"]

/-- `ClickhouseProxy.QUERY_MAX_SIZE` (16 KiB). -/
def QUERY_MAX_SIZE : Nat := 16 * 1024

/-- `ClickhouseProxy.__init__`: uppercases `fmt` and asserts membership in
`FORMATS` (`none` models an `AssertionError`); stores the `dbn` parameter
under the `db` attribute. -/
def initProxy (host : String) (port_http : Nat) (username : String)
    (password : Option String) (dbn : String) (fmt : String) (nodry : Bool) :
    Option ClickhouseProxy :=
  let fmtU := pyUpper fmt
  if FORMATS.contains fmtU then
    some { host := host, port_http := port_http, username := username,
           password := password, db := dbn, fmt := fmtU, nodry := nodry }
  else
    Option.none

/-- Attribute lookup on the instance for the string-valued attributes
`__init__` binds (`host`, `username`, `db`, `fmt`); any other name — in
particular `dbn`, which `alter_table` and `delete_partition` read — raises
`AttributeError`. -/
def ClickhouseProxy.strAttr (p : ClickhouseProxy) (n : String) :
    Except PyError String :=
  if n == "host" then Except.ok p.host
  else if n == "username" then Except.ok p.username
  else if n == "db" then Except.ok p.db
  else if n == "fmt" then Except.ok p.fmt
  else Except.error (PyError.attributeError n)

/-- `ClickhouseProxy.compose_url`: credentials are included only when both
`username` and `password` are truthy. -/
def ClickhouseProxy.compose_url (p : ClickhouseProxy) : String :=
  let passTruthy := match p.password with
    | some pw => pw != ""
    | Option.none => false
  if p.username != "" && passTruthy then
    "http://" ++ p.host ++ ":" ++ toString p.port_http ++ "/?user=" ++
      p.username ++ "&password=" ++ (p.password.getD "")
  else
    "http://" ++ p.host ++ ":" ++ toString p.port_http ++ "/"

/-- `ClickhouseProxy.query` together with its `log_if_code_neq_200` decorator:
logs the curl debug line, returns `None` with no network traffic unless
`nodry` is truthy, otherwise posts the statement and warns when the status
code is not 200. -/
def ClickhouseProxy.query (p : ClickhouseProxy) (transport : Transport)
    (sql : String) (nodry : Bool) : Option HttpResp × Effects :=
  let url := p.compose_url
  let dbg := "curl '" ++ url ++ "' -d '" ++ sql ++ "'"
  if nodry then
    let r := transport sql
    let warns :=
      if r.status_code != 200 then
        ["curl '" ++ url ++ "' -d '" ++ sql ++ "' \nresp.code:" ++
          toString r.status_code ++ " resp.body: " ++ r.content]
      else []
    (some r, ⟨[NetEvent.post url sql], dbg :: warns⟩)
  else
    (Option.none, ⟨[], [dbg]⟩)

/-- `ClickhouseProxy.parse_json_resp`: returns `resp["data"]` when the decoded
body has a `"data"` key and falls through to an implicit Python `None`
otherwise (the source has no `else` branch). Structured responses are JSON
objects, modelled as dicts; any other decoded shape also yields `None`. -/
def parse_json_resp (resp : PyObj) : PyObj :=
  match resp with
  | PyObj.dict fs =>
    match fs.find? (fun f => f.1 == "data") with
    | some f => f.2
    | Option.none => PyObj.none
  | _ => PyObj.none

/-- `ClickhouseProxy.query_parse`: appends `" format " + self.fmt` (the
assert in `__init__` makes `self.fmt` always truthy), strips, enforces
`QUERY_MAX_SIZE` on the processed statement (returning Python `None` with an
error log and no network traffic on overflow), then runs `query` and decodes:
`None` result or non-200 status give `[]`; in JSON mode an empty body or a
`create table ... on cluster` statement give `[]`, an undecodable body
re-raises `ValueError`, and otherwise the result is `parse_json_resp`; in
non-JSON mode the raw body is returned. -/
def ClickhouseProxy.query_parse (p : ClickhouseProxy) (transport : Transport)
    (sql0 : String) (nodry : Bool) : Except PyError PyObj × Effects :=
  let sql1 := if p.fmt != "" then sql0 ++ " format " ++ p.fmt else sql0
  let sql := pyStrip sql1
  if sql.length > QUERY_MAX_SIZE then
    (Except.ok PyObj.none,
     ⟨[], ["SQL max length is " ++ toString QUERY_MAX_SIZE ++ ", got " ++
       toString sql.length]⟩)
  else
    match p.query transport sql nodry with
    | (Option.none, eff) => (Except.ok (PyObj.list []), eff)
    | (some r, eff) =>
      if r.status_code != 200 then (Except.ok (PyObj.list []), eff)
      else if p.fmt == "JSON" then
        if r.content == "" then (Except.ok (PyObj.list []), eff)
        else
          let sql_lower := pyLower sql
          if strContainsSub sql_lower "create table" &&
              strContainsSub sql_lower "on cluster" then
            (Except.ok (PyObj.list []), eff)
          else
            match r.jsonBody with
            | Option.none =>
              (Except.error PyError.valueError,
               ⟨eff.net, eff.logs ++
                 ["expected response in JSON, got -" ++ r.content ++ "-"]⟩)
            | some body => (Except.ok (parse_json_resp body), eff)
      else (Except.ok (PyObj.str r.content), eff)

/-- The loop body of `exist_table`:
`for row in ret: if row["result"]: return True; break` then `return False` —
only the first row is ever inspected, an empty iteration yields `False`, and
iterating or subscripting an unsuitable value raises. -/
def existLoop (ret : PyObj) : Except PyError Bool :=
  match pyIter ret with
  | Except.error e => Except.error e
  | Except.ok [] => Except.ok false
  | Except.ok (row :: _) =>
    match pyIndex row "result" with
    | Except.error e => Except.error e
    | Except.ok v => Except.ok (pyTruthy v)

/-- `ClickhouseProxy.exist_table`: issues `exists <name>` (always executed,
`nodry=True`), then runs `existLoop` over the decoded result. -/
def ClickhouseProxy.exist_table (p : ClickhouseProxy) (transport : Transport)
    (name : String) : Except PyError Bool × Effects :=
  let sql := "exists " ++ name
  match p.query_parse transport sql true with
  | (Except.error e, eff) => (Except.error e, eff)
  | (Except.ok ret, eff) => (existLoop ret, eff)

/-- Rendering of one change operation into an `ALTER TABLE` clause
(the loop body of `alter_table`; each of the three ops appends exactly one
action string). -/
def actionOf : ChangeOp → String
  | ChangeOp.add n t => "ADD COLUMN " ++ n ++ " " ++ t
  | ChangeOp.drop n => "DROP COLUMN " ++ n
  | ChangeOp.modify n t => "MODIFY COLUMN " ++ n ++ " " ++ t

/-- Truthiness of an optional-string argument (`if cluster:`). -/
def pyOptStrTruthy (c : Option String) : Bool :=
  match c with
  | Option.none => false
  | some s => s != ""

/-- `ClickhouseProxy.alter_table`: renders the action list, then formats
`"ALTER TABLE {dbn}.{tbl_name} {on_cluster} {actions}"`. Both format branches
read `self.dbn`, an attribute `__init__` never binds (it stores the database
name under `self.db`), so the formatting raises `AttributeError` before any
statement exists; otherwise the statement would go through `query_parse`
under the instance-level `nodry` gate. -/
def ClickhouseProxy.alter_table (p : ClickhouseProxy) (transport : Transport)
    (tbl_name : String) (changes : List ChangeOp) (cluster : Option String) :
    Except PyError PyObj × Effects :=
  let actions := changes.map actionOf
  match p.strAttr "dbn" with
  | Except.error e => (Except.error e, ⟨[], []⟩)
  | Except.ok dbn =>
    let on_cluster :=
      if pyOptStrTruthy cluster then "ON CLUSTER " ++ pyStrip (cluster.getD "")
      else ""
    let sql := "ALTER TABLE " ++ dbn ++ "." ++ tbl_name ++ " " ++ on_cluster ++
      " " ++ String.intercalate ", " actions
    p.query_parse transport sql p.nodry

/-- `ClickhouseProxy.delete_partition`: the cluster branch formats
`'ALTER TABLE {dbn}.{table} on cluster {cluster} DROP PARTITION {partition}'`
reading the unbound `self.dbn` (AttributeError); the non-cluster branch
hardcodes the database literal `default` and submits under the `nodry`
gate. -/
def ClickhouseProxy.delete_partition (p : ClickhouseProxy)
    (transport : Transport) (partition table : String)
    (cluster : Option String) : Except PyError PyObj × Effects :=
  if pyOptStrTruthy cluster then
    match p.strAttr "dbn" with
    | Except.error e => (Except.error e, ⟨[], []⟩)
    | Except.ok dbn =>
      let sql := "ALTER TABLE " ++ dbn ++ "." ++ table ++ " on cluster " ++
        (cluster.getD "") ++ " DROP PARTITION " ++ partition
      p.query_parse transport sql p.nodry
  else
    let sql := "ALTER TABLE default." ++ table ++ " DROP PARTITION " ++
      partition
    p.query_parse transport sql p.nodry


def processed (sql0 : String) : String := pyStrip (sql0 ++ " format JSON")

theorem append_format_json (s : String) :
    s ++ " format " ++ "JSON" = s ++ " format JSON" := by
  rw [String.append_assoc]
  rfl

theorem query_parse_reject (p : ClickhouseProxy) (t : Transport)
    (sql0 : String) (nodry : Bool) (hfmt : p.fmt = "JSON")
    (hgt : (processed sql0).length > QUERY_MAX_SIZE) :
    p.query_parse t sql0 nodry =
      (Except.ok PyObj.none,
       ⟨[], ["SQL max length is " ++ toString QUERY_MAX_SIZE ++ ", got " ++
         toString (processed sql0).length]⟩) := by
  have hgt' : (pyStrip (sql0 ++ " format JSON")).length > QUERY_MAX_SIZE := hgt
  unfold ClickhouseProxy.query_parse
  rw [hfmt, append_format_json]
  have hne : (("JSON" : String) != "") = true := by decide
  rw [hne]
  simp only [if_true]
  rw [if_pos hgt']
  rfl

theorem query_parse_dry (p : ClickhouseProxy) (t : Transport) (sql0 : String)
    (hfmt : p.fmt = "JSON") (hle : ¬ (processed sql0).length > QUERY_MAX_SIZE) :
    p.query_parse t sql0 false =
      (Except.ok (PyObj.list []),
       ⟨[], ["curl '" ++ p.compose_url ++ "' -d '" ++ processed sql0 ++ "'"]⟩) := by
  have hle' : ¬ (pyStrip (sql0 ++ " format JSON")).length > QUERY_MAX_SIZE := hle
  unfold ClickhouseProxy.query_parse
  rw [hfmt, append_format_json]
  have hne : (("JSON" : String) != "") = true := by decide
  rw [hne]
  simp only [if_true]
  rw [if_neg hle']
  rfl

theorem query_parse_live_net (p : ClickhouseProxy) (t : Transport)
    (sql0 : String) (hfmt : p.fmt = "JSON")
    (hle : ¬ (processed sql0).length > QUERY_MAX_SIZE) :
    (p.query_parse t sql0 true).2.net =
      [NetEvent.post p.compose_url (processed sql0)] := by
  have hle' : ¬ (pyStrip (sql0 ++ " format JSON")).length > QUERY_MAX_SIZE := hle
  simp only [processed]
  unfold ClickhouseProxy.query_parse
  rw [hfmt, append_format_json]
  have hne : (("JSON" : String) != "") = true := by decide
  rw [hne]
  simp only [if_true]
  rw [if_neg hle']
  unfold ClickhouseProxy.query
  simp only [if_true]
  repeat' (first | rfl | split)

theorem query_parse_live_json (p : ClickhouseProxy) (t : Transport)
    (sql0 : String) (body : PyObj) (hfmt : p.fmt = "JSON")
    (hle : ¬ (processed sql0).length > QUERY_MAX_SIZE)
    (hstatus : (t (processed sql0)).status_code = 200)
    (hcontent : (t (processed sql0)).content ≠ "")
    (hnc : strContainsSub (pyLower (processed sql0)) "create table" = false)
    (hjson : (t (processed sql0)).jsonBody = some body) :
    p.query_parse t sql0 true =
      (Except.ok (parse_json_resp body),
       ⟨[NetEvent.post p.compose_url (processed sql0)],
        ["curl '" ++ p.compose_url ++ "' -d '" ++ processed sql0 ++ "'"]⟩) := by
  have hle' : ¬ (pyStrip (sql0 ++ " format JSON")).length > QUERY_MAX_SIZE := hle
  have hstatus' : (t (pyStrip (sql0 ++ " format JSON"))).status_code = 200 := hstatus
  have hcontent' : (t (pyStrip (sql0 ++ " format JSON"))).content ≠ "" := hcontent
  have hnc' : strContainsSub (pyLower (pyStrip (sql0 ++ " format JSON"))) "create table" = false := hnc
  have hjson' : (t (pyStrip (sql0 ++ " format JSON"))).jsonBody = some body := hjson
  simp only [processed]
  unfold ClickhouseProxy.query_parse
  rw [hfmt, append_format_json]
  have hne : (("JSON" : String) != "") = true := by decide
  rw [hne]
  simp only [if_true]
  rw [if_neg hle']
  unfold ClickhouseProxy.query
  simp only [if_true, hstatus', hjson', hnc']
  simp [hcontent']

/-- A sample instance: `ClickhouseProxy(logger, dbn="mydb")` (defaults
otherwise), so `db = "mydb"`, `fmt = "JSON"`, `nodry = False`. -/
def sampleProxy : ClickhouseProxy :=
  { host := "127.0.0.1", port_http := 8123, username := "default",
    password := Option.none, db := "mydb", fmt := "JSON", nodry := false }

/-- The same instance with `nodry=True` (real writes allowed). -/
def sampleProxyLive : ClickhouseProxy :=
  { sampleProxy with nodry := true }

/-- A store that answers every statement with a 200 response whose JSON body
is an object WITHOUT a `"data"` key. -/
def respNoData : Transport := fun _ => ⟨200, "{}", some (PyObj.dict [])⟩

/-- C2 (counterexample): `alter_table("t", [])` on a freshly constructed
proxy raises `AttributeError: dbn` (the template args read `self.dbn`, but
`__init__` stores the database name in `self.db`): the call does not return a
no-op success outcome. -/
theorem c2_counterexample :
    sampleProxy.alter_table respNoData "t" [] Option.none =
      (Except.error (PyError.attributeError "dbn"), ⟨[], []⟩) := rfl

/-- C2 (amended): for every proxy, transport, table and cluster, `alter_table`
with an empty change list submits nothing to the Transport Client — but not as
a no-op success: it raises `AttributeError` on `self.dbn` before the statement
is formatted, with no network traffic and no log output. -/
theorem c2_amended (p : ClickhouseProxy) (t : Transport) (tbl : String)
    (cluster : Option String) :
    p.alter_table t tbl [] cluster =
      (Except.error (PyError.attributeError "dbn"), ⟨[], []⟩) := rfl

/-- C3 (confirmed): every `alter_table` call — any change list, with or
without a cluster — and every `delete_partition` call with a (truthy) cluster
raises `AttributeError` on `self.dbn` before anything is rendered or
submitted (empty effects), because `__init__` stores the configured database
name under `db` and never binds `dbn`. -/
theorem c3_dbn_attribute_error (p : ClickhouseProxy) (t : Transport)
    (tbl : String) (changes : List ChangeOp) (cluster : Option String) :
    p.alter_table t tbl changes cluster =
      (Except.error (PyError.attributeError "dbn"), ⟨[], []⟩) ∧
    ∀ (partition table c : String), c ≠ "" →
      p.delete_partition t partition table (some c) =
        (Except.error (PyError.attributeError "dbn"), ⟨[], []⟩) := by
  constructor
  · rfl
  · intro partition table c hc
    unfold ClickhouseProxy.delete_partition
    have htr : pyOptStrTruthy (some c) = true := by
      simp [pyOptStrTruthy, hc]
    rw [htr]
    rfl

/-- C3 (witness): at a concrete proxy, change list and cluster, both calls
raise `AttributeError: dbn`. -/
theorem c3_dbn_attribute_error_witness :
    sampleProxy.alter_table respNoData "t" [ChangeOp.add "x" "Int32"]
      (some "east") = (Except.error (PyError.attributeError "dbn"), ⟨[], []⟩) ∧
    ("east" : String) ≠ "" ∧
    sampleProxy.delete_partition respNoData "202001" "events" (some "east") =
      (Except.error (PyError.attributeError "dbn"), ⟨[], []⟩) := by
  refine ⟨?_, by decide, ?_⟩
  · exact (c3_dbn_attribute_error sampleProxy respNoData "t"
      [ChangeOp.add "x" "Int32"] (some "east")).1
  · exact (c3_dbn_attribute_error sampleProxy respNoData "t"
      [ChangeOp.add "x" "Int32"] (some "east")).2 "202001" "events" "east"
      (by decide)

/-- C5 (counterexample): the spec's scenario — `alter_table("t",
[Add{x,Int32}], cluster="east")` with execution disabled (`nodry=False`) —
does not return a skipped-execution sentinel: it raises `AttributeError` on
`self.dbn` before the dry-run gate is ever consulted. -/
theorem c5_counterexample :
    sampleProxy.nodry = false ∧
    sampleProxy.alter_table respNoData "t" [ChangeOp.add "x" "Int32"]
      (some "east") =
      (Except.error (PyError.attributeError "dbn"), ⟨[], []⟩) :=
  ⟨rfl, rfl⟩

/-- C5 (amended): the dry-run gate behaves as claimed for the one mutating
call that reaches it, `delete_partition` without a cluster: with
`nodry=False` the statement is built and logged (the curl debug line) but
never submitted, and the call returns the sentinel `[]`; with `nodry=True`
the statement is submitted through the Transport Client. `alter_table` (and
the clustered `delete_partition`) instead raise `AttributeError: dbn`. -/
theorem c5_amended (p : ClickhouseProxy) (t : Transport)
    (partition table : String) (hfmt : p.fmt = "JSON")
    (hle : ¬ (processed ("ALTER TABLE default." ++ table ++
      " DROP PARTITION " ++ partition)).length > QUERY_MAX_SIZE) :
    (p.nodry = false →
      p.delete_partition t partition table Option.none =
        (Except.ok (PyObj.list []),
         ⟨[], ["curl '" ++ p.compose_url ++ "' -d '" ++
           processed ("ALTER TABLE default." ++ table ++ " DROP PARTITION " ++
             partition) ++ "'"]⟩)) ∧
    (p.nodry = true →
      (p.delete_partition t partition table Option.none).2.net =
        [NetEvent.post p.compose_url
          (processed ("ALTER TABLE default." ++ table ++ " DROP PARTITION " ++
            partition))]) := by
  have hdp : p.delete_partition t partition table Option.none =
      p.query_parse t ("ALTER TABLE default." ++ table ++ " DROP PARTITION " ++
        partition) p.nodry := rfl
  constructor
  · intro h
    rw [hdp, h]
    exact query_parse_dry p t _ hfmt hle
  · intro h
    rw [hdp, h]
    exact query_parse_live_net p t _ hfmt hle

/-- C5 (witness): concretely, with `nodry=False` the partition deletion is
logged and returns `[]` with no network traffic, and with `nodry=True` it is
posted to the store. -/
theorem c5_amended_witness :
    sampleProxy.delete_partition respNoData "202001" "events" Option.none =
      (Except.ok (PyObj.list []),
       ⟨[], ["curl 'http://127.0.0.1:8123/' -d 'ALTER TABLE default.events DROP PARTITION 202001 format JSON'"]⟩) ∧
    (sampleProxyLive.delete_partition respNoData "202001" "events"
      Option.none).2.net =
      [NetEvent.post "http://127.0.0.1:8123/"
        "ALTER TABLE default.events DROP PARTITION 202001 format JSON"] := by
  constructor
  · exact (c5_amended sampleProxy respNoData "202001" "events" rfl
      (by decide)).1 rfl
  · exact (c5_amended sampleProxyLive respNoData "202001" "events" rfl
      (by decide)).2 rfl

/-- C10 (counterexample): `delete_partition` with a cluster does NOT render
the configured database followed by the cluster qualifier: on a proxy
configured with database `mydb` it raises `AttributeError: dbn` and renders
nothing. -/
theorem c10_counterexample :
    sampleProxy.db = "mydb" ∧
    sampleProxy.delete_partition respNoData "202001" "events" (some "east") =
      (Except.error (PyError.attributeError "dbn"), ⟨[], []⟩) :=
  ⟨rfl, rfl⟩

/-- C10 (amended): `delete_partition` without a cluster renders the literal
database qualifier `default.` regardless of the configured database (the
submitted statement mentions `p.db` nowhere) and is submitted under the
dry-run gate; `delete_partition` WITH a (truthy) cluster raises
`AttributeError: dbn` instead of rendering the configured database. -/
theorem c10_amended (p : ClickhouseProxy) (t : Transport)
    (partition table : String) (hfmt : p.fmt = "JSON")
    (hle : ¬ (processed ("ALTER TABLE default." ++ table ++
      " DROP PARTITION " ++ partition)).length > QUERY_MAX_SIZE) :
    (p.nodry = false →
      p.delete_partition t partition table Option.none =
        (Except.ok (PyObj.list []),
         ⟨[], ["curl '" ++ p.compose_url ++ "' -d '" ++
           processed ("ALTER TABLE default." ++ table ++ " DROP PARTITION " ++
             partition) ++ "'"]⟩)) ∧
    (p.nodry = true →
      (p.delete_partition t partition table Option.none).2.net =
        [NetEvent.post p.compose_url
          (processed ("ALTER TABLE default." ++ table ++ " DROP PARTITION " ++
            partition))]) ∧
    ∀ c : String, c ≠ "" →
      p.delete_partition t partition table (some c) =
        (Except.error (PyError.attributeError "dbn"), ⟨[], []⟩) := by
  have hdp : p.delete_partition t partition table Option.none =
      p.query_parse t ("ALTER TABLE default." ++ table ++ " DROP PARTITION " ++
        partition) p.nodry := rfl
  refine ⟨?_, ?_, ?_⟩
  · intro h
    rw [hdp, h]
    exact query_parse_dry p t _ hfmt hle
  · intro h
    rw [hdp, h]
    exact query_parse_live_net p t _ hfmt hle
  · intro c hc
    unfold ClickhouseProxy.delete_partition
    have htr : pyOptStrTruthy (some c) = true := by
      simp [pyOptStrTruthy, hc]
    rw [htr]
    rfl

/-- C10 (witness): concretely, the non-cluster deletion on a proxy configured
with database `mydb` posts a statement qualified with `default.` when the
gate allows writes, and the clustered deletion raises `AttributeError`. -/
theorem c10_amended_witness :
    (sampleProxyLive.delete_partition respNoData "202001" "events"
      Option.none).2.net =
      [NetEvent.post "http://127.0.0.1:8123/"
        "ALTER TABLE default.events DROP PARTITION 202001 format JSON"] ∧
    sampleProxyLive.delete_partition respNoData "202001" "events"
      (some "east") =
      (Except.error (PyError.attributeError "dbn"), ⟨[], []⟩) := by
  constructor
  · exact (c10_amended sampleProxyLive respNoData "202001" "events" rfl
      (by decide)).2.1 rfl
  · exact (c10_amended sampleProxyLive respNoData "202001" "events" rfl
      (by decide)).2.2 "east" (by decide)

/-- C8 (counterexample): against a store whose structured 200-response parses
to an object WITHOUT a `"data"` key, `exist_table` does not return `False`:
the decoder hands back Python `None` and iterating it raises `TypeError`. -/
theorem c8_counterexample :
    (respNoData "exists t format JSON").jsonBody = some (PyObj.dict []) ∧
    (sampleProxy.exist_table respNoData "t").1 =
      Except.error PyError.typeError :=
  ⟨rfl, rfl⟩

/-- C8 (amended): `exist_table` interprets the first decoded row's `result`
field and returns `True` iff it is truthy; a decoded `"data"` row list that
is empty gives `False`; but when the structured response lacks a `"data"` key
the decoder returns `None` and `exist_table` raises `TypeError` instead of
returning `False`. -/
theorem c8_amended (p : ClickhouseProxy) (t : Transport) (name : String)
    (hfmt : p.fmt = "JSON")
    (hle : ¬ (processed ("exists " ++ name)).length > QUERY_MAX_SIZE)
    (hstatus : (t (processed ("exists " ++ name))).status_code = 200)
    (hcontent : (t (processed ("exists " ++ name))).content ≠ "")
    (hnc : strContainsSub (pyLower (processed ("exists " ++ name)))
      "create table" = false)
    (fs : List (String × PyObj))
    (hjson : (t (processed ("exists " ++ name))).jsonBody =
      some (PyObj.dict fs)) :
    (fs.find? (fun f => f.1 == "data") = some ("data", PyObj.list []) →
      (p.exist_table t name).1 = Except.ok false) ∧
    (∀ (rfs : List (String × PyObj)) (rest : List PyObj) (v : PyObj),
      fs.find? (fun f => f.1 == "data") =
        some ("data", PyObj.list (PyObj.dict rfs :: rest)) →
      rfs.find? (fun f => f.1 == "result") = some ("result", v) →
      (p.exist_table t name).1 = Except.ok (pyTruthy v)) ∧
    (fs.find? (fun f => f.1 == "data") = Option.none →
      (p.exist_table t name).1 = Except.error PyError.typeError) := by
  have hq := query_parse_live_json p t ("exists " ++ name) (PyObj.dict fs)
    hfmt hle hstatus hcontent hnc hjson
  refine ⟨?_, ?_, ?_⟩
  · intro hfind
    have hpj : parse_json_resp (PyObj.dict fs) = PyObj.list [] := by
      show (match fs.find? (fun f => f.1 == "data") with
        | some f => f.2
        | Option.none => PyObj.none) = PyObj.list []
      rw [hfind]
    show (match p.query_parse t ("exists " ++ name) true with
      | (Except.error e, eff) => (Except.error e, eff)
      | (Except.ok ret, eff) => (existLoop ret, eff)).1 = Except.ok false
    rw [hq, hpj]
    rfl
  · intro rfs rest v hfind hres
    have hpj : parse_json_resp (PyObj.dict fs) =
        PyObj.list (PyObj.dict rfs :: rest) := by
      show (match fs.find? (fun f => f.1 == "data") with
        | some f => f.2
        | Option.none => PyObj.none) = PyObj.list (PyObj.dict rfs :: rest)
      rw [hfind]
    have hidx : pyIndex (PyObj.dict rfs) "result" = Except.ok v := by
      show (match rfs.find? (fun f => f.1 == "result") with
        | some f => Except.ok f.2
        | Option.none => Except.error (PyError.keyError "result")) =
        Except.ok v
      rw [hres]
    show (match p.query_parse t ("exists " ++ name) true with
      | (Except.error e, eff) => (Except.error e, eff)
      | (Except.ok ret, eff) => (existLoop ret, eff)).1 =
      Except.ok (pyTruthy v)
    rw [hq, hpj]
    show (match pyIndex (PyObj.dict rfs) "result" with
      | Except.error e => Except.error e
      | Except.ok w => Except.ok (pyTruthy w)) = Except.ok (pyTruthy v)
    rw [hidx]
  · intro hfind
    have hpj : parse_json_resp (PyObj.dict fs) = PyObj.none := by
      show (match fs.find? (fun f => f.1 == "data") with
        | some f => f.2
        | Option.none => PyObj.none) = PyObj.none
      rw [hfind]
    show (match p.query_parse t ("exists " ++ name) true with
      | (Except.error e, eff) => (Except.error e, eff)
      | (Except.ok ret, eff) => (existLoop ret, eff)).1 =
      Except.error PyError.typeError
    rw [hq, hpj]
    rfl

/-- C8 (witness): a concrete store answering with one row whose `result` is
`1` makes `exist_table` return `True`, and one answering an empty `"data"`
list makes it return `False`. -/
theorem c8_amended_witness :
    (sampleProxy.exist_table
      (fun _ => ⟨200, "x", some (PyObj.dict [("data",
        PyObj.list [PyObj.dict [("result", PyObj.int 1)]])])⟩) "t").1 =
      Except.ok true ∧
    (sampleProxy.exist_table
      (fun _ => ⟨200, "x", some (PyObj.dict [("data", PyObj.list [])])⟩)
      "t").1 = Except.ok false := by
  constructor
  · exact (c8_amended sampleProxy
      (fun _ => ⟨200, "x", some (PyObj.dict [("data",
        PyObj.list [PyObj.dict [("result", PyObj.int 1)]])])⟩) "t" rfl
      (by decide) rfl (by decide) (by decide) _ rfl).2.1
      [("result", PyObj.int 1)] [] (PyObj.int 1) rfl rfl
  · exact (c8_amended sampleProxy
      (fun _ => ⟨200, "x", some (PyObj.dict [("data", PyObj.list [])])⟩)
      "t" rfl (by decide) rfl (by decide) (by decide) _ rfl).1 rfl

/-- C9 (counterexample): a structured body that parses to an object without a
`"data"` key makes the decoder return Python `None`, which is NOT the empty
sequence: callers receive a value distinct from `[]` (and iterating it
crashes, cf. `exist_table`). -/
theorem c9_counterexample :
    parse_json_resp (PyObj.dict [("meta", PyObj.list [])]) = PyObj.none ∧
    PyObj.none ≠ PyObj.list [] := by
  refine ⟨rfl, ?_⟩
  intro h
  exact PyObj.noConfusion h

/-- C9 (amended): for every successfully parsed object without a `"data"`
key, `parse_json_resp` returns Python `None` — a falsy value, but a different
value from the empty sequence `[]` that a genuinely empty result produces. -/
theorem c9_amended (fs : List (String × PyObj))
    (hfind : fs.find? (fun f => f.1 == "data") = Option.none) :
    parse_json_resp (PyObj.dict fs) = PyObj.none ∧
    PyObj.none ≠ PyObj.list [] := by
  constructor
  · show (match fs.find? (fun f => f.1 == "data") with
      | some f => f.2
      | Option.none => PyObj.none) = PyObj.none
    rw [hfind]
  · intro h
    exact PyObj.noConfusion h

/-- C9 (witness): the amended fact at a concrete `"data"`-less object. -/
theorem c9_amended_witness :
    ([("meta", PyObj.list [])] : List (String × PyObj)).find?
      (fun f => f.1 == "data") = Option.none ∧
    parse_json_resp (PyObj.dict [("meta", PyObj.list [])]) = PyObj.none :=
  ⟨rfl, (c9_amended [("meta", PyObj.list [])] rfl).1⟩

theorem dropWhile_eq_self_cons {p : Char → Bool} (c : Char) (l : List Char)
    (hc : p c = false) : (c :: l).dropWhile p = c :: l := by
  rw [List.dropWhile_cons, hc]
  simp

/-- A 16 KiB statement: 16384 repetitions of `a`. -/
def s16 : String := String.mk (List.replicate 16384 'a')

theorem processed_s16_eq :
    processed s16 =
      String.mk (List.replicate 16384 'a' ++ (" format JSON" : String).data) := by
  have hdata : (s16 ++ (" format JSON" : String)).data =
      List.replicate 16384 'a' ++ (" format JSON" : String).data := by
    rw [String.data_append]
    rfl
  have hcons : List.replicate 16384 'a' ++ (" format JSON" : String).data =
      'a' :: (List.replicate 16383 'a' ++ (" format JSON" : String).data) := by
    rw [show (16384 : Nat) = 16383 + 1 from rfl, List.replicate_succ,
      List.cons_append]
  have h1 : (List.replicate 16384 'a' ++
      (" format JSON" : String).data).dropWhile Char.isWhitespace =
      List.replicate 16384 'a' ++ (" format JSON" : String).data := by
    rw [hcons]
    exact dropWhile_eq_self_cons _ _ (by decide)
  have hrev : (List.replicate 16384 'a' ++
      (" format JSON" : String).data).reverse =
      'N' :: (['O', 'S', 'J', ' ', 't', 'a', 'm', 'r', 'o', 'f', ' '] ++
        List.replicate 16384 'a') := by
    rw [List.reverse_append, List.reverse_replicate]
    rfl
  have h2 : ((List.replicate 16384 'a' ++
      (" format JSON" : String).data).reverse).dropWhile Char.isWhitespace =
      (List.replicate 16384 'a' ++ (" format JSON" : String).data).reverse := by
    rw [hrev]
    exact dropWhile_eq_self_cons _ _ (by decide)
  have hlist : ((((s16 ++ (" format JSON" : String)).data.dropWhile
      Char.isWhitespace).reverse.dropWhile Char.isWhitespace)).reverse =
      List.replicate 16384 'a' ++ (" format JSON" : String).data := by
    rw [hdata, h1, h2, List.reverse_reverse]
  unfold processed pyStrip
  exact congrArg String.mk hlist

theorem processed_s16_length : (processed s16).length = 16396 := by
  rw [processed_s16_eq]
  show (List.replicate 16384 'a' ++ (" format JSON" : String).data).length =
    16396
  rw [List.length_append, List.length_replicate]
  rfl

/-- C4 (counterexample): a statement of exactly 16 KiB does NOT reach the
Transport Client: `query_parse` first appends the 12-character
`" format JSON"` suffix, so the processed statement is 16396 characters long
and the size gate rejects it — no network call, result is Python `None`. -/
theorem c4_counterexample :
    s16.length = 16384 ∧
    sampleProxyLive.query_parse respNoData s16 true =
      (Except.ok PyObj.none,
       ⟨[], ["SQL max length is 16384, got 16396"]⟩) := by
  constructor
  · show (List.replicate 16384 'a').length = 16384
    rw [List.length_replicate]
  · have hgt : (processed s16).length > QUERY_MAX_SIZE := by
      rw [processed_s16_length]
      decide
    have h := query_parse_reject sampleProxyLive respNoData s16 true rfl hgt
    rw [processed_s16_length] at h
    exact h

/-- C4 (amended): the 16 KiB gate is enforced on the PROCESSED statement —
the input with `" format JSON"` (12 characters) appended and stripped. When
the processed statement exceeds 16 KiB, `query_parse` fails fast with the
size-limit error log and performs no network call, for every dry-run setting;
when it does not, the statement reaches the Transport Client (one POST). In
particular a raw statement of exactly 16 KiB is rejected, not submitted
(`c4_counterexample`). -/
theorem c4_amended (p : ClickhouseProxy) (t : Transport) (s : String)
    (nodry : Bool) (hfmt : p.fmt = "JSON") :
    ((processed s).length > QUERY_MAX_SIZE →
      p.query_parse t s nodry =
        (Except.ok PyObj.none,
         ⟨[], ["SQL max length is " ++ toString QUERY_MAX_SIZE ++ ", got " ++
           toString (processed s).length]⟩)) ∧
    (¬ (processed s).length > QUERY_MAX_SIZE →
      (p.query_parse t s true).2.net =
        [NetEvent.post p.compose_url (processed s)]) := by
  constructor
  · intro hgt
    exact query_parse_reject p t s nodry hfmt hgt
  · intro hle
    exact query_parse_live_net p t s hfmt hle

/-- C4 (witness): a short statement passes the gate and is posted to the
store. -/
theorem c4_amended_witness :
    ¬ (processed "show tables").length > QUERY_MAX_SIZE ∧
    (sampleProxyLive.query_parse respNoData "show tables" true).2.net =
      [NetEvent.post "http://127.0.0.1:8123/" "show tables format JSON"] := by
  refine ⟨by decide, ?_⟩
  exact (c4_amended sampleProxyLive respNoData "show tables" true rfl).2
    (by decide)
